import Mathlib

/-!
Verification of the `client-session` Express middleware (client-session.js and
DeepProxy.js) against its natural-language specification.

The session payload is a JavaScript value tree. `SessionObj` wraps its backing
object `#data` in a `DeepProxy` whose `set` / `deleteProperty` traps call back
into the session's handlers, which enforce the reserved-property guard and pass
`JSON.stringify(#data)` to the token-issuance callback.

The embedding below models the value tree, `JSON.stringify`, the DeepProxy
traps composed with the SessionObj handlers (`sessionSet`, `sessionDelete`),
the `SessionObj` constructor, and the `ClientSession` middleware, cookie and
token-expiry logic.
-/

set_option autoImplicit false

namespace ClientSession

/-- A JavaScript value as stored in the session tree: `null`, booleans,
numbers, strings, functions (the `terminate` capability), and plain objects
represented as insertion-ordered association lists. -/
inductive JSValue where
  | vNull : JSValue
  | vBool : Bool → JSValue
  | vNum : Int → JSValue
  | vStr : String → JSValue
  | vFunc : JSValue
  | vObj : List (String × JSValue) → JSValue
  deriving Repr

/-- JavaScript `typeof v` being `object`: true exactly for `null` and objects. -/
def jsTypeofObject : JSValue → Bool
  | .vNull => true
  | .vObj _ => true
  | _ => false

/-- Own-property lookup on an object's field list (first match). -/
def lookupField : List (String × JSValue) → String → Option JSValue
  | [], _ => none
  | (k', v) :: rest, k => if k' = k then some v else lookupField rest k

/-- JavaScript property assignment on a field list: an existing key is updated
in place (insertion order preserved), a new key is appended. -/
def setKey : List (String × JSValue) → String → JSValue → List (String × JSValue)
  | [], k, v => [(k, v)]
  | (k', v') :: rest, k, v =>
    if k' = k then (k, v) :: rest else (k', v') :: setKey rest k v

/-- Read the node at `path` (a chain of object keys) from a root value. -/
def getAt : JSValue → List String → Option JSValue
  | v, [] => some v
  | .vObj fs, p :: ps =>
    match lookupField fs p with
    | some c => getAt c ps
    | none => none
  | _, _ :: _ => none

/-- Functional form of the in-place assignment `target[k] = v`, where `target`
is the node at `path` inside the root: the root with the field `k` of the node
at `path` replaced by `v`. An unreachable path leaves the root unchanged (the
trap of a proxy at such a path cannot exist). -/
def updateAt : JSValue → List String → String → JSValue → JSValue
  | .vObj fs, [], k, v => .vObj (setKey fs k v)
  | .vObj fs, p :: ps, k, v =>
    match lookupField fs p with
    | some c => .vObj (setKey fs p (updateAt c ps k v))
    | none => .vObj fs
  | other, _, _, _ => other

/-- Escaping performed by `JSON.stringify` on string contents; the quote and
backslash cases are the ones session keys and values can exercise here. -/
def jsonEscapeChar (c : Char) : String :=
  if c = '"' then "\\\""
  else if c = '\\' then "\\\\"
  else if c = '\n' then "\\n"
  else if c = '\t' then "\\t"
  else if c = '\r' then "\\r"
  else String.singleton c

/-- A JSON string literal: quoted and escaped. -/
def jsonQuote (s : String) : String :=
  "\"" ++ String.join (s.data.map jsonEscapeChar) ++ "\""

mutual

/-- `JSON.stringify` of a value, `none` when the value is dropped (functions
serialize to `undefined` and are omitted from objects). -/
def stringifyVal : JSValue → Option String
  | .vNull => some "null"
  | .vBool b => some (if b then "true" else "false")
  | .vNum n => some (toString n)
  | .vStr s => some (jsonQuote s)
  | .vFunc => none
  | .vObj fs => some ("\x7b" ++ String.intercalate "," (stringifyFields fs) ++ "\x7d")

/-- The `"key":value` members of an object, function-valued fields omitted. -/
def stringifyFields : List (String × JSValue) → List String
  | [] => []
  | (k, v) :: rest =>
    match stringifyVal v with
    | none => stringifyFields rest
    | some sv => (jsonQuote k ++ ":" ++ sv) :: stringifyFields rest

end

/-- `JSON.stringify` of a session root (always an object, hence never
dropped). -/
def stringify (v : JSValue) : String :=
  (stringifyVal v).getD "undefined"

mutual

/-- Whether `DeepProxy.proxify(v, path)` succeeds. `proxify` recurses into
every child with `typeof` equal to `object` and then evaluates `new Proxy(v, …)`;
since `typeof null` is `object`, a `null` reaching `proxify` throws a
`TypeError` (`new Proxy(null, …)` is rejected). -/
def proxifyOk : JSValue → Bool
  | .vNull => false
  | .vObj fs => proxifyFieldsOk fs
  | _ => true

/-- The `for key in obj` loop of `proxify` over the fields of an object. -/
def proxifyFieldsOk : List (String × JSValue) → Bool
  | [] => true
  | (_, v) :: rest =>
    (if jsTypeofObject v then proxifyOk v else true) && proxifyFieldsOk rest

end

mutual

/-- Whether `DeepProxy.unproxy(target, key)` succeeds on the value at `key`.
`unproxy` evaluates `Object.keys(value)` (a `TypeError` when the value is
`null`) and recurses into every child with `typeof` equal to `object`. -/
def unproxyOk : JSValue → Bool
  | .vNull => false
  | .vObj fs => unproxyFieldsOk fs
  | _ => true

/-- The loop of `unproxy` over `Object.keys` of an object value. -/
def unproxyFieldsOk : List (String × JSValue) → Bool
  | [] => true
  | (_, v) :: rest =>
    (if jsTypeofObject v then unproxyOk v else true) && unproxyFieldsOk rest

end

/-- The reserved property names guarded by `SessionObj`. -/
def reservedProps : List String := ["originIP", "terminate"]

/-- `reservedProp(rootProp)`: whether `rootProp` is one of the reserved
property names (the source loops over `reservedProps` testing equality). -/
def reservedProp (rootProp : String) : Bool :=
  reservedProps.contains rootProp

/-- Errors a mutation through the proxy can surface. -/
inductive JSError where
  | typeError : JSError
  | reservedError : JSError
  deriving Repr, DecidableEq

/-- Outcome of one mutation through the tracked interface: the tree contents
afterwards, the argument of the issuance call if one happened, and the error
thrown if any. -/
structure MutResult where
  data : JSValue
  issued : Option String
  error : Option JSError
  deriving Repr

/-- One `set` through the proxy of the node at `path`: the DeepProxy trap
first proxifies an object-typed value (a `TypeError` aborts with nothing
stored), then stores `target[key] = value`, and only then invokes the
SessionObj handler, which throws when the first segment of the full path is
reserved and otherwise issues `JSON.stringify(#data)` of the whole root. -/
def sessionSet (d : JSValue) (path : List String) (k : String) (v : JSValue) :
    MutResult :=
  if jsTypeofObject v && !proxifyOk v then
    ⟨d, none, some .typeError⟩
  else
    let d' := updateAt d path k v
    if reservedProp ((path ++ [k]).headI) then
      ⟨d', none, some .reservedError⟩
    else
      ⟨d', some (stringify d'), none⟩

/-- One `delete` through the proxy of the node at `path`: the DeepProxy trap
checks `key in target`, runs `unproxy` (a `TypeError` when it meets `null`),
computes `deleted = key in target` — still true, since `unproxy` removes
nothing — and then invokes the SessionObj handler (reserved guard, then
issuance). The trap never executes `delete target[key]`, so the key remains
in the tree and in the issued serialization. -/
def sessionDelete (d : JSValue) (path : List String) (k : String) : MutResult :=
  match getAt d (path ++ [k]) with
  | none => ⟨d, none, none⟩
  | some v =>
    if !unproxyOk v then
      ⟨d, none, some .typeError⟩
    else if reservedProp ((path ++ [k]).headI) then
      ⟨d, none, some .reservedError⟩
    else
      ⟨d, some (stringify d), none⟩

/-- A session handle: the backing tree `#data` together with the arguments of
every `issueToken` call made so far, in order. -/
structure SessState where
  data : JSValue
  issued : List String
  deriving Repr

/-- A raw property assignment `this.#data.k = v` on the backing object, as the
constructor performs it before (or outside of) the proxy wrap: no trap runs,
so no handler call and no issuance. -/
def rootSet (d : JSValue) (k : String) (v : JSValue) : JSValue :=
  match d with
  | .vObj fs => .vObj (setKey fs k v)
  | other => other

/-- The `SessionObj` constructor: adopt `prevPayload` when given, otherwise
start from `{}` and set `originIP = ip`; in both branches install the
`terminate` capability by raw assignment; finally wrap `#data` in a
`DeepProxy`. Neither the raw assignments nor `proxify` invoke the mutation
handler, so the constructor performs no issuance. -/
def constructSession (prevPayload : Option JSValue) (ip : String) : SessState :=
  match prevPayload with
  | some d => ⟨rootSet d "terminate" .vFunc, []⟩
  | none => ⟨rootSet (rootSet (.vObj []) "originIP" (.vStr ip)) "terminate" .vFunc, []⟩

/-- Configuration options of `ClientSession`; `restrictIPAccess` is `none`
when the option is absent (JavaScript `undefined`, which is falsy). -/
structure Options where
  secret : String
  expiresIn : Nat
  restrictIPAccess : Option Bool

/-- JavaScript truthiness of the possibly-absent `restrictIPAccess` flag. -/
def truthyOpt : Option Bool → Bool
  | some b => b
  | none => false

/-- The cookie written by `updateCookie`. -/
structure Cookie where
  value : String
  expiresEpochMs : Nat
  httpOnly : Bool
  deriving Repr, DecidableEq

/-- `updateCookie`: `res.cookie` on the `accessToken` name with `expires: new
Date(Date.now() + this.expiresIn)` and `httpOnly: true`. `Date.now()` is epoch
milliseconds and `expiresIn` is added to it directly. -/
def updateCookie (opts : Options) (nowMs : Nat) (token : String) : Cookie :=
  ⟨token, nowMs + opts.expiresIn, true⟩

/-- The `exp` claim of the issued token:
`Math.floor(Date.now() / 1000) + this.expiresIn` (epoch seconds). -/
def tokenExp (opts : Options) (nowMs : Nat) : Nat :=
  nowMs / 1000 + opts.expiresIn

/-- The `terminate` callback wired by `createSessionObj`:
`res.clearCookie` on `accessToken` and then
`req.clientSession = this.createSessionObj(undefined, req, res)`. -/
def terminateSession (ip : String) (_cookie : Option Cookie) :
    Option Cookie × SessState :=
  (none, constructSession none ip)

/-- Result reported by `jwt.verify` to its callback: some `TokenError`
(malformed, invalid signature, or expired), or success with the payload's
`data` field. -/
inductive VerifyResult where
  | err : VerifyResult
  | ok : String → VerifyResult
  deriving Repr

/-- Observable outcome of running the middleware on one request: whether
`res.sendStatus(403)` was sent, what `req.clientSession` was set to, and
whether `next()` was called. -/
structure MWResult where
  sentForbidden : Bool
  clientSession : Option SessState
  nextCalled : Bool
  deriving Repr

/-- `tokenData.originIP !== req.ip`: a strict comparison that is an equality
only when the stored `originIP` is a string equal to the request origin. -/
def middlewareOriginMismatch (tokenData : JSValue) (ip : String) : Bool :=
  match tokenData with
  | .vObj fs =>
    match lookupField fs "originIP" with
    | some (.vStr s) => !(s == ip)
    | _ => true
  | _ => true

/-- The `middleware` method: with no `accessToken` cookie, construct an
anonymous session and call `next()`; otherwise verify the token — any error
sends 403 and stops; on success parse `payload.data`, apply the origin check
(`tokenData.originIP !== req.ip && this.restrictIPAccess`), and either send
403 or rehydrate a session from the parsed tree and call `next()`.
`verify` and `parseData` stand for the external `jwt.verify` outcome and
`JSON.parse`. -/
def middleware (opts : Options) (ip : String) (cookieToken : Option String)
    (verify : String → VerifyResult) (parseData : String → JSValue) : MWResult :=
  match cookieToken with
  | none => ⟨false, some (constructSession none ip), true⟩
  | some tok =>
    match verify tok with
    | .err => ⟨true, none, false⟩
    | .ok ds =>
      let tokenData := parseData ds
      if middlewareOriginMismatch tokenData ip && truthyOpt opts.restrictIPAccess then
        ⟨true, none, false⟩
      else
        ⟨false, some (constructSession (some tokenData) ip), true⟩

/-! ### Claim theorems -/

/-- A session tree holding `originIP`, the `terminate` capability, and one
ordinary key `a = 1`. -/
def deleteBugData : JSValue :=
  .vObj [("originIP", .vStr "1.2.3.4"), ("terminate", .vFunc), ("a", .vNum 1)]

/-- C1: the claim states `delete(path, key)` removes the key, so that it is
absent afterwards and absent from the issued serialization. The code's
`deleteProperty` trap never executes `delete target[key]`: deleting the
existing non-reserved key `a` leaves the tree unchanged, `a` still present,
and the issuance still carries `a` — the claim fails on the code. -/
theorem c1_delete_leaves_key_present :
    (sessionDelete deleteBugData [] "a").error = none ∧
    (sessionDelete deleteBugData [] "a").data = deleteBugData ∧
    getAt (sessionDelete deleteBugData [] "a").data ["a"] = some (.vNum 1) ∧
    (sessionDelete deleteBugData [] "a").issued =
      some "\x7b\"originIP\":\"1.2.3.4\",\"a\":1\x7d" :=
  ⟨rfl, rfl, rfl, rfl⟩

/-- The freshly constructed session tree at origin `1.2.3.4`. -/
def reservedSetData : JSValue := (constructSession none "1.2.3.4").data

/-- C2: the claim states a reserved-key mutation leaves the tree exactly as
before. The DeepProxy trap stores `target[key] = value` before invoking the
guard, so `session.originIP = "9.9.9.9"` throws the reserved-property error
and performs no issuance, yet `originIP` has already been overwritten — the
claim's no-effect part fails on the code. -/
theorem c2_reserved_set_mutates_before_error :
    (sessionSet reservedSetData [] "originIP" (.vStr "9.9.9.9")).error =
      some .reservedError ∧
    (sessionSet reservedSetData [] "originIP" (.vStr "9.9.9.9")).issued = none ∧
    getAt reservedSetData ["originIP"] = some (.vStr "1.2.3.4") ∧
    getAt (sessionSet reservedSetData [] "originIP" (.vStr "9.9.9.9")).data
      ["originIP"] = some (.vStr "9.9.9.9") :=
  ⟨rfl, rfl, rfl, rfl⟩

/-- A session tree with one ordinary key `x = true`. -/
def deleteIssueData : JSValue :=
  .vObj [("originIP", .vStr "5.6.7.8"), ("terminate", .vFunc), ("x", .vBool true)]

/-- C3: the claim states the issuance accompanying an accepted mutation
carries a serialization reflecting that mutation. For a delete of the
non-reserved key `x`, exactly one issuance does occur, with `terminate`
excluded and `originIP` included, but the serialization still contains `x`
(the key is never removed), so it does not reflect the delete — the claim
fails on the code for deletes. -/
theorem c3_delete_issuance_not_reflecting :
    (sessionDelete deleteIssueData [] "x").error = none ∧
    (sessionDelete deleteIssueData [] "x").issued =
      some "\x7b\"originIP\":\"5.6.7.8\",\"x\":true\x7d" ∧
    stringify (.vObj [("originIP", .vStr "5.6.7.8"), ("terminate", .vFunc)]) =
      "\x7b\"originIP\":\"5.6.7.8\"\x7d" ∧
    (sessionDelete deleteIssueData [] "x").issued ≠
      some "\x7b\"originIP\":\"5.6.7.8\"\x7d" :=
  ⟨rfl, rfl, rfl, by decide⟩

/-- Options with a 10-second `expiresIn`. -/
def tenSecondOpts : Options := ⟨"s", 10, none⟩

/-- C4: the claim states the `accessToken` cookie's expiry is the current
time plus `expiresIn` seconds, matching the token's `exp` duration. The code
computes `new Date(Date.now() + this.expiresIn)`, adding seconds to an
epoch-millisecond clock: with `expiresIn = 10` at `Date.now() =
1700000000000`, the cookie expires 10 milliseconds later, not 10 seconds,
while the token `exp` is 10 seconds later — the claim fails on the code. -/
theorem c4_cookie_expiry_milliseconds :
    (updateCookie tenSecondOpts 1700000000000 "tok").expiresEpochMs =
      1700000000010 ∧
    (updateCookie tenSecondOpts 1700000000000 "tok").expiresEpochMs ≠
      1700000000000 + 10 * 1000 ∧
    tokenExp tenSecondOpts 1700000000000 = 1700000000 + 10 ∧
    (updateCookie tenSecondOpts 1700000000000 "tok").httpOnly = true :=
  ⟨rfl, by decide, rfl, rfl⟩

/-- C5: with an inbound token whose verification reports any token error, the
middleware sends the fixed 403 denial and short-circuits: no session is
constructed (in particular no anonymous fallback) and `next()` is not
called. -/
theorem c5_verify_error_denied (opts : Options) (ip tok : String)
    (verify : String → VerifyResult) (parseData : String → JSValue)
    (h : verify tok = .err) :
    middleware opts ip (some tok) verify parseData = ⟨true, none, false⟩ := by
  simp [middleware, h]

/-- Closed instance of `c5_verify_error_denied` at a concrete request. -/
theorem c5_verify_error_denied_witness :
    middleware ⟨"s", 10, none⟩ "1.2.3.4" (some "t") (fun _ => .err)
      (fun _ => .vObj []) = ⟨true, none, false⟩ :=
  c5_verify_error_denied ⟨"s", 10, none⟩ "1.2.3.4" "t" (fun _ => .err)
    (fun _ => .vObj []) rfl

/-- C6: for an otherwise-valid inbound token whose embedded `originIP`
differs from the request origin, the middleware denies with the fixed 403
signal when `restrictIPAccess` is true, and accepts the token — constructing
a session rehydrated from the parsed payload — when the option is false or
absent (both falsy, the default). -/
theorem c6_origin_binding (opts : Options) (ip tok ds : String)
    (verify : String → VerifyResult) (parseData : String → JSValue)
    (hv : verify tok = .ok ds)
    (hm : middlewareOriginMismatch (parseData ds) ip = true) :
    (truthyOpt opts.restrictIPAccess = true →
      middleware opts ip (some tok) verify parseData = ⟨true, none, false⟩) ∧
    (truthyOpt opts.restrictIPAccess = false →
      middleware opts ip (some tok) verify parseData =
        ⟨false, some (constructSession (some (parseData ds)) ip), true⟩) := by
  constructor <;> intro hr <;> simp [middleware, hv, hm, hr]

/-- A parsed token payload whose `originIP` is not the request origin used in
the witness. -/
def mismatchParse : String → JSValue :=
  fun _ => .vObj [("originIP", .vStr "2.2.2.2")]

/-- Closed instance of `c6_origin_binding`: the same mismatched token is
denied with `restrictIPAccess = some true` and accepted with the option
absent. -/
theorem c6_origin_binding_witness :
    middleware ⟨"s", 10, some true⟩ "1.1.1.1" (some "t") (fun _ => .ok "d")
      mismatchParse = ⟨true, none, false⟩ ∧
    middleware ⟨"s", 10, none⟩ "1.1.1.1" (some "t") (fun _ => .ok "d")
      mismatchParse =
      ⟨false, some (constructSession (some (mismatchParse "d")) "1.1.1.1"),
        true⟩ :=
  ⟨(c6_origin_binding ⟨"s", 10, some true⟩ "1.1.1.1" "t" "d" (fun _ => .ok "d")
      mismatchParse rfl rfl).1 rfl,
   (c6_origin_binding ⟨"s", 10, none⟩ "1.1.1.1" "t" "d" (fun _ => .ok "d")
      mismatchParse rfl rfl).2 rfl⟩

/-- C7: invoking `terminate()` clears the outbound `accessToken` cookie and
replaces the session handle with a fresh anonymous session whose tree is
exactly `originIP = ip` plus the unserialized `terminate` capability, so its
serialization is the object holding only `originIP`; the handle is an object,
never null. -/
theorem c7_terminate_resets_session (ip : String) (c : Option Cookie) :
    (terminateSession ip c).1 = none ∧
    (terminateSession ip c).2.data =
      .vObj [("originIP", .vStr ip), ("terminate", .vFunc)] ∧
    stringify (terminateSession ip c).2.data =
      "\x7b" ++ (jsonQuote "originIP" ++ ":" ++ jsonQuote ip) ++ "\x7d" ∧
    ∃ fs, (terminateSession ip c).2.data = .vObj fs :=
  ⟨rfl, rfl, rfl, ⟨_, rfl⟩⟩

/-- C8: constructing a session — fresh anonymous or rehydrated from a token
payload — performs zero issuance calls; the constructor only makes raw
assignments and wraps the tree, neither of which invokes the mutation
handler. -/
theorem c8_construction_no_issuance (prevPayload : Option JSValue)
    (ip : String) :
    (constructSession prevPayload ip).issued = [] := by
  cases prevPayload <;> rfl

/-- C9: the reserved guard inspects only the first segment of the mutation
path: whenever the full path is rooted at `originIP` or `terminate` the
mutation throws the reserved error at any depth, and whenever it is not so
rooted the guard never fires, even for a leaf key named `originIP` or
`terminate`. The hypotheses keep the trap from throwing the unrelated
`TypeError` first (no `null` composite in the set value, and a present,
`null`-free target for the delete). -/
theorem c9_guard_first_segment_only (d v : JSValue) (path : List String)
    (k : String)
    (hset : jsTypeofObject v = true → proxifyOk v = true)
    (hdel : ∃ u, getAt d (path ++ [k]) = some u ∧ unproxyOk u = true) :
    (reservedProp ((path ++ [k]).headI) = true →
      (sessionSet d path k v).error = some .reservedError ∧
      (sessionDelete d path k).error = some .reservedError) ∧
    (reservedProp ((path ++ [k]).headI) = false →
      (sessionSet d path k v).error ≠ some .reservedError ∧
      (sessionDelete d path k).error ≠ some .reservedError) := by
  obtain ⟨u, hu, huo⟩ := hdel
  have hcond : (jsTypeofObject v && !proxifyOk v) = false := by
    cases h : jsTypeofObject v
    · simp
    · simp [hset h]
  refine ⟨fun hr => ⟨?_, ?_⟩, fun hr => ⟨?_, ?_⟩⟩ <;>
    simp [sessionSet, sessionDelete, hcond, hu, huo, hr]

/-- A session tree with a non-reserved subtree `a` holding a nested key named
`originIP`. -/
def nestedOriginData : JSValue :=
  .vObj [("originIP", .vStr "3.3.3.3"), ("terminate", .vFunc),
    ("a", .vObj [("originIP", .vStr "z"), ("b", .vNum 0)])]

/-- Closed instance of `c9_guard_first_segment_only`: mutating the nested
key `a.originIP` is not rejected (its first path segment is `a`), while
deleting the root key `terminate` is. -/
theorem c9_guard_first_segment_only_witness :
    reservedProp ((["a"] ++ ["originIP"] : List String).headI) = false ∧
    (sessionSet nestedOriginData ["a"] "originIP" (.vNum 5)).error ≠
      some .reservedError ∧
    (sessionDelete nestedOriginData ["a"] "originIP").error ≠
      some .reservedError ∧
    (sessionDelete nestedOriginData [] "terminate").error =
      some .reservedError := by
  have h₁ := c9_guard_first_segment_only nestedOriginData (.vNum 5) ["a"]
    "originIP" (by decide) ⟨.vStr "z", rfl, rfl⟩
  have h₂ := c9_guard_first_segment_only nestedOriginData (.vNum 5) []
    "terminate" (by decide) ⟨.vFunc, rfl, rfl⟩
  exact ⟨by decide, (h₁.2 (by decide)).1, (h₁.2 (by decide)).2,
    (h₂.1 (by decide)).2⟩

/-- C10: setting any non-reserved key to `null` does not succeed: since
`typeof null` is `object`, the trap hands `null` to `proxify`, which throws a
`TypeError` before the store, so the value is not stored, no issuance occurs,
and the error surfaces — even though `null` is an ordinary JSON primitive. -/
theorem c10_set_null_rejected (d : JSValue) (path : List String) (k : String)
    (h : reservedProp ((path ++ [k]).headI) = false) :
    (sessionSet d path k .vNull).error = some .typeError ∧
    (sessionSet d path k .vNull).data = d ∧
    (sessionSet d path k .vNull).issued = none :=
  ⟨rfl, rfl, rfl⟩

/-- Closed instance of `c10_set_null_rejected` on a fresh session tree. -/
theorem c10_set_null_rejected_witness :
    reservedProp (([] ++ ["x"] : List String).headI) = false ∧
    (sessionSet (constructSession none "7.7.7.7").data [] "x" .vNull).error =
      some .typeError ∧
    (sessionSet (constructSession none "7.7.7.7").data [] "x" .vNull).data =
      (constructSession none "7.7.7.7").data ∧
    (sessionSet (constructSession none "7.7.7.7").data [] "x" .vNull).issued =
      none := by
  have h := c10_set_null_rejected (constructSession none "7.7.7.7").data []
    "x" (by decide)
  exact ⟨by decide, h.1, h.2.1, h.2.2⟩

end ClientSession
